import Mathlib

/-!
Verification development for the dm_control "finger" task layer
(`envpool/mujoco/dmc/finger.h`), as a shallow embedding.

The engine arrays (`site_rgba`, `site_pos`, `site_size`, `dof_damping`,
`geom_size`, `sensordata`, `xanchor`) are modelled as flat maps `Nat → ℝ`
indexed exactly as the C++ source indexes the corresponding `mjModel` /
`mjData` raw pointers; `mjtNum` (double) is modelled by `ℝ`.  The contact
counter `ncon` is a natural number.  Fallible operations return
`Except String`, carrying the literal C++ exception message.
-/

namespace mujoco_dmc

/-- The `mjModel` fields that `finger.h` reads or writes, as flat arrays. -/
structure EngineModel where
  site_rgba : Nat → ℝ
  site_pos : Nat → ℝ
  site_size : Nat → ℝ
  dof_damping : Nat → ℝ
  geom_size : Nat → ℝ

/-- The `mjData` fields that `finger.h` reads: the sensor output vector,
the joint anchor positions, and the contact count `ncon`. -/
structure EngineData where
  sensordata : Nat → ℝ
  xanchor : Nat → ℝ
  ncon : Nat

/-- `const mjtNum kEasyTargetSize = 0.07;` (finger.h line 69). -/
def kEasyTargetSize : ℝ := 0.07

/-- `const mjtNum kHardTargetSize = 0.03;` (finger.h line 70). -/
def kHardTargetSize : ℝ := 0.03

/-- `const mjtNum kSpinVelocity = 15;` (finger.h line 71). -/
def kSpinVelocity : ℝ := 15

/-- The members of `FingerEnv` that the constructor establishes:
`is_spin_` and `target_radius_`.  `target_radius_` is a plain `mjtNum`
member that the constructor leaves unassigned (indeterminate) for the
spin task; we model that indeterminacy with `none`. -/
structure FingerEnv where
  is_spin : Bool
  target_radius : Option ℝ

/-- Embedding of the `FingerEnv` constructor body (finger.h lines 80-96):
`is_spin_` is initialized to `task_name == "spin"` in the initializer
list, then `target_radius_` is assigned for the two turn variants, and
any `task_name` other than the three known ones throws
`std::runtime_error("Unknown task_name for dmc finger.")`. -/
def FingerEnvConstruct (task_name : String) : Except String FingerEnv :=
  let is_spin : Bool := task_name == "spin"
  if task_name = "turn_easy" then Except.ok ⟨is_spin, some kEasyTargetSize⟩
  else if task_name = "turn_hard" then Except.ok ⟨is_spin, some kHardTargetSize⟩
  else if task_name ≠ "spin" then Except.error "Unknown task_name for dmc finger."
  else Except.ok ⟨is_spin, none⟩

/-- `HingeVelocity` (finger.h lines 190-193): `data_->sensordata[4]`. -/
def HingeVelocity (d : EngineData) : ℝ := d.sensordata 4

/-- `TipPosition` (finger.h lines 202-207): planar tip coordinates
relative to the spinner, `sensordata[5] - sensordata[11]` and
`sensordata[7] - sensordata[13]`. -/
def TipPosition (d : EngineData) : ℝ × ℝ :=
  (d.sensordata 5 - d.sensordata 11, d.sensordata 7 - d.sensordata 13)

/-- `TargetPosition` (finger.h lines 209-214): planar target coordinates
relative to the spinner, `sensordata[8] - sensordata[11]` and
`sensordata[10] - sensordata[13]`. -/
def TargetPosition (d : EngineData) : ℝ × ℝ :=
  (d.sensordata 8 - d.sensordata 11, d.sensordata 10 - d.sensordata 13)

/-- `BoundedPosition` (finger.h lines 194-200): proximal and distal joint
angles followed by the planar tip position. -/
def BoundedPosition (d : EngineData) : ℝ × ℝ × ℝ × ℝ :=
  (d.sensordata 0, d.sensordata 1, (TipPosition d).1, (TipPosition d).2)

/-- `std::log1p`, i.e. `x ↦ log (1 + x)`. -/
noncomputable def log1p (x : ℝ) : ℝ := Real.log (1 + x)

/-- `Touch` (finger.h lines 216-220): elementwise `log1p` of the two raw
touch sensor readings `sensordata[14]`, `sensordata[15]`. -/
noncomputable def Touch (d : EngineData) : ℝ × ℝ :=
  (log1p (d.sensordata 14), log1p (d.sensordata 15))

/-- `Velocity` (finger.h lines 222-226): proximal, distal and hinge
angular velocities, a direct passthrough of `sensordata[2..4]`. -/
def Velocity (d : EngineData) : ℝ × ℝ × ℝ :=
  (d.sensordata 2, d.sensordata 3, d.sensordata 4)

/-- `ToTarget` (finger.h lines 228-234): `target_position - tip_position`
componentwise. -/
def ToTarget (d : EngineData) : ℝ × ℝ :=
  ((TargetPosition d).1 - (TipPosition d).1,
   (TargetPosition d).2 - (TipPosition d).2)

/-- `DistToTarget` (finger.h lines 236-243): the Euclidean norm of
`ToTarget` minus `model_->site_size[0]` (the stored target radius). -/
noncomputable def DistToTarget (m : EngineModel) (d : EngineData) : ℝ :=
  Real.sqrt ((ToTarget d).1 * (ToTarget d).1 + (ToTarget d).2 * (ToTarget d).2) -
    m.site_size 0

/-- `TaskGetReward` (finger.h lines 139-144): for spin,
`static_cast<float>(HingeVelocity() <= -kSpinVelocity)`; otherwise
`static_cast<float>(DistToTarget() <= 0)`.  The bool-to-float cast yields
exactly `1.0` or `0.0`. -/
noncomputable def TaskGetReward (is_spin : Bool) (m : EngineModel) (d : EngineData) : ℝ :=
  if is_spin then (if HingeVelocity d ≤ -kSpinVelocity then 1 else 0)
  else (if DistToTarget m d ≤ 0 then 1 else 0)

/-- `TaskShouldTerminateEpisode` (finger.h line 146): always `false`. -/
def TaskShouldTerminateEpisode : Bool := false

/-- The loop body of `SetRandomJointAngles` (finger.h lines 177-183).
Each iteration of the C++ loop calls `RandomizeLimitedAndRotationalJoints`
and `PhysicsAfterReset`, producing a fresh engine-data state; we model
that external sampling as a stream `attempts : Nat → EngineData` giving
the data after the i-th randomize-and-settle.  The loop accepts the first
attempt with `ncon == 0` and otherwise runs until the fuel
(`max_attempts` minus the iterations already done) is used up. -/
def sraLoop (attempts : Nat → EngineData) (i fuel : Nat) (d : EngineData) : EngineData :=
  match fuel with
  | 0 => d
  | f + 1 =>
    let dn := attempts i
    if dn.ncon = 0 then dn else sraLoop attempts (i + 1) f dn

/-- `SetRandomJointAngles` (finger.h lines 175-188), embedded faithfully,
including the counter shadowing: the function declares `int i = 0;` and
then the for statement declares a NEW `i` (`for (int i = 0; ...)`), so
the outer `i` tested by `if (i == max_attempts)` is still `0` after the
loop.  `d0` is the engine data on entry. -/
def SetRandomJointAngles (d0 : EngineData) (attempts : Nat → EngineData)
    (max_attempts : Nat) : Except String EngineData :=
  let i : Nat := 0
  let d1 := sraLoop attempts 0 max_attempts d0
  if i = max_attempts then
    Except.error "Could not find a collision-free state after max_attempts attempts"
  else Except.ok d1

/-- The model mutations performed by `TaskInitializeEpisode`
(finger.h lines 98-120) before it calls `SetRandomJointAngles`:
for spin, `site_rgba[3 * 0 + 3] = 0`, `site_rgba[3 * 3 + 3] = 0` and
`dof_damping[2] = 0.03`; otherwise the target placement
`site_pos[0] = hinge_x + radius * sin θ`,
`site_pos[2] = hinge_z + radius * cos θ`,
`site_size[0] = target_radius_`, with
`hinge_x = xanchor[2 * 3 + 0]`, `hinge_z = xanchor[2 * 3 + 2]` and
`radius = geom_size[5 * 3 + 0] + geom_size[5 * 1] + geom_size[5 * 2]`.
`θ` is the bearing angle drawn from `dist_uniform_`. -/
noncomputable def TaskInitEpModel (is_spin : Bool) (target_radius θ : ℝ)
    (m : EngineModel) (d : EngineData) : EngineModel :=
  if is_spin then
    { m with
      site_rgba := Function.update (Function.update m.site_rgba (3 * 0 + 3) 0) (3 * 3 + 3) 0,
      dof_damping := Function.update m.dof_damping 2 0.03 }
  else
    let hinge_x := d.xanchor (2 * 3 + 0)
    let hinge_z := d.xanchor (2 * 3 + 2)
    let radius := m.geom_size (5 * 3 + 0) + m.geom_size (5 * 1) + m.geom_size (5 * 2)
    let target_x := hinge_x + radius * Real.sin θ
    let target_z := hinge_z + radius * Real.cos θ
    { m with
      site_pos := Function.update (Function.update m.site_pos 0 target_x) 2 target_z,
      site_size := Function.update m.site_size 0 target_radius }

/-- `TaskInitializeEpisode` (finger.h lines 98-124): performs the model
mutations of `TaskInitEpModel` and then calls `SetRandomJointAngles()`
with its default bound of 1000 attempts.  Joint sampling settles under
the mutated model, so the attempt stream is a function of the model. -/
noncomputable def TaskInitializeEpisode (is_spin : Bool) (target_radius θ : ℝ)
    (m : EngineModel) (d : EngineData)
    (attempts : EngineModel → Nat → EngineData) :
    EngineModel × Except String EngineData :=
  let m1 := TaskInitEpModel is_spin target_radius θ m d
  (m1, SetRandomJointAngles d (attempts m1) 1000)

/-- One emitted state record (`WriteState`, finger.h lines 149-173).
Fields that `WriteState` assigns are `some`; a field it skips stays
`none`. -/
structure StateRecord where
  reward : Option ℝ
  discount : Option ℝ
  position : Option (ℝ × ℝ × ℝ × ℝ)
  velocity : Option (ℝ × ℝ × ℝ)
  touch : Option (ℝ × ℝ)
  target_position : Option (ℝ × ℝ)
  dist_to_target : Option ℝ

/-- `WriteState` (finger.h lines 149-173): always writes reward,
discount, position, velocity and touch; writes `obs:target_position`
and `obs:dist_to_target` only when `!is_spin_`. -/
noncomputable def WriteState (is_spin : Bool) (m : EngineModel) (d : EngineData)
    (reward discount : ℝ) : StateRecord :=
  { reward := some reward
    discount := some discount
    position := some (BoundedPosition d)
    velocity := some (Velocity d)
    touch := some (Touch d)
    target_position := if is_spin then none else some (TargetPosition d)
    dist_to_target := if is_spin then none else some (DistToTarget m d) }

/-- Modelled from the spec: the `ControlReset` driver lives in
`mujoco_env.h`, which is not part of this repository snapshot; per spec
§2 the control flow is Reset → EpisodeInitializer (the sampling loop) →
ObservationBuilder → emit state, with reward/discount scalars passed
through from the harness.  `Reset` therefore runs
`TaskInitializeEpisode` and, when the sampling loop did not throw,
emits the record built by `WriteState` (finger.h lines 128-131). -/
noncomputable def Reset (is_spin : Bool) (target_radius θ : ℝ)
    (m0 : EngineModel) (d0 : EngineData)
    (attempts : EngineModel → Nat → EngineData) (reward discount : ℝ) :
    Except String (EngineModel × EngineData × StateRecord) :=
  match TaskInitializeEpisode is_spin target_radius θ m0 d0 attempts with
  | (_, Except.error e) => Except.error e
  | (m1, Except.ok d1) => Except.ok (m1, d1, WriteState is_spin m1 d1 reward discount)

/-- Modelled from the spec: `ControlStep` (in `mujoco_env.h`, outside
this snapshot) advances the physics externally; per spec §2, Step then
emits the same record shape via `WriteState` (finger.h lines 133-137).
`d1` is the engine data after the physics advance. -/
noncomputable def Step (is_spin : Bool) (m : EngineModel) (d1 : EngineData)
    (reward discount : ℝ) : StateRecord :=
  WriteState is_spin m d1 reward discount

/-- The support of the member `dist_uniform_`, constructed as
`std::uniform_real_distribution<>(-M_PI, M_PI)` (finger.h line 86),
which yields values in the half-open interval `[-π, π)`. -/
def dist_uniform_interval : Set ℝ := Set.Ico (-Real.pi) Real.pi

/-- A concrete model with every array entry equal to 1. -/
def cModel : EngineModel :=
  ⟨fun _ => 1, fun _ => 1, fun _ => 1, fun _ => 1, fun _ => 1⟩

/-- A concrete data state that is in contact (`ncon = 1`). -/
def cData : EngineData := ⟨fun _ => 0, fun _ => 0, 1⟩

/-- A concrete contact-free data state (`ncon = 0`). -/
def goodData : EngineData := ⟨fun _ => 0, fun _ => 0, 0⟩

/-- An attempt stream on which every sampled configuration is in
contact: rejection never succeeds. -/
def badAttempts : Nat → EngineData := fun _ => cData

/-- An attempt stream whose very first sample is contact-free. -/
def goodAttempts : EngineModel → Nat → EngineData := fun _ _ => goodData

/-- If every attempt is in contact, the sampling loop runs its whole
fuel and ends in the last sampled (still contacted) configuration. -/
theorem sraLoop_all_reject (attempts : Nat → EngineData)
    (h : ∀ j, (attempts j).ncon ≠ 0) :
    ∀ fuel i d, sraLoop attempts i (fuel + 1) d = attempts (i + fuel) := by
  intro fuel
  induction fuel with
  | zero => intro i d; simp [sraLoop, h i]
  | succ n ih =>
    intro i d
    rw [show n + 1 + 1 = (n + 1) + 1 from rfl, sraLoop]
    simp only [h i, if_neg]
    rw [ih (i + 1)]
    have hidx : i + 1 + n = i + (n + 1) := by omega
    rw [hidx]
    simp

/-- If the attempt at the current index is contact-free, the loop
accepts it immediately. -/
theorem sraLoop_accept_first (attempts : Nat → EngineData) (i f : Nat) (d : EngineData)
    (h : (attempts i).ncon = 0) : sraLoop attempts i (f + 1) d = attempts i := by
  rw [sraLoop]
  simp [h]

/-- On the all-contacted stream, `SetRandomJointAngles` with the default
bound of 1000 returns normally with the 1000th (contacted) sample. -/
theorem SetRandomJointAngles_exhausted :
    SetRandomJointAngles cData badAttempts 1000 = Except.ok (badAttempts 999) := by
  have h : ∀ j, (badAttempts j).ncon ≠ 0 := by
    intro j; simp [badAttempts, cData]
  have h2 := sraLoop_all_reject badAttempts h 999 0 cData
  norm_num at h2
  unfold SetRandomJointAngles
  simp [h2]

/-- Claim C1: the spec says that when the rejection-sampling loop
performs its 1000 attempts without finding a zero-contact configuration,
`SetRandomJointAngles` raises the fatal initialization-exhausted error.
On the stream where every attempt has contact count 1, the embedded
source instead returns normally (`Except.ok`) with a configuration that
still has nonzero contacts: the `for` statement re-declares `i`, so the
outer `i` compared against `max_attempts` is always 0 and the `throw`
is unreachable. -/
theorem C1_exhausted_loop_raises_no_error :
    SetRandomJointAngles cData badAttempts 1000 = Except.ok (badAttempts 999)
    ∧ (badAttempts 999).ncon ≠ 0 :=
  ⟨SetRandomJointAngles_exhausted, by simp [badAttempts, cData]⟩

/-- Claim C2: the spec says that after every `Reset` that completes
without an error the contact count is exactly 0 when the first
observation is written.  On the all-contacted attempt stream, `Reset`
completes without an error (because the exhaustion check tests the
shadowed counter) yet the engine data carried into `WriteState` has
contact count 1. -/
theorem C2_reset_completes_with_contacts :
    Reset true 0 0 cModel cData (fun _ => badAttempts) 0 1
      = Except.ok (TaskInitEpModel true 0 0 cModel cData, badAttempts 999,
          WriteState true (TaskInitEpModel true 0 0 cModel cData) (badAttempts 999) 0 1)
    ∧ (badAttempts 999).ncon = 1 := by
  constructor
  · unfold Reset TaskInitializeEpisode
    simp [SetRandomJointAngles_exhausted]
  · simp [badAttempts, cData]

/-- Claim C3: for the turn variants (any non-spin model produced by
`TaskInitEpModel` with target radius `tr`), `DistToTarget` equals the
Euclidean norm of `target_position - tip_position` minus the target
radius, and `TaskGetReward` is `1.0` exactly when that value is `≤ 0`
(boundary inclusive) and `0.0` otherwise. -/
theorem C3_turn_dist_and_reward (tr θ : ℝ) (m0 : EngineModel) (d0 d : EngineData) :
    DistToTarget (TaskInitEpModel false tr θ m0 d0) d
      = Real.sqrt (((TargetPosition d).1 - (TipPosition d).1) ^ 2
          + ((TargetPosition d).2 - (TipPosition d).2) ^ 2) - tr
    ∧ (TaskGetReward false (TaskInitEpModel false tr θ m0 d0) d = 1
        ↔ DistToTarget (TaskInitEpModel false tr θ m0 d0) d ≤ 0)
    ∧ (TaskGetReward false (TaskInitEpModel false tr θ m0 d0) d = 0
        ↔ ¬ DistToTarget (TaskInitEpModel false tr θ m0 d0) d ≤ 0) := by
  refine ⟨?_, ?_, ?_⟩
  · simp [DistToTarget, TaskInitEpModel, ToTarget, Function.update, pow_two]
  · by_cases h : DistToTarget (TaskInitEpModel false tr θ m0 d0) d ≤ 0 <;>
      simp [TaskGetReward, h]
  · by_cases h : DistToTarget (TaskInitEpModel false tr θ m0 d0) d ≤ 0 <;>
      simp [TaskGetReward, h]

/-- Claim C4: for the spin variant the step reward is `1.0` exactly when
the hinge angular velocity (`sensordata[4]`) is `≤ -15.0` (boundary
inclusive) and `0.0` otherwise. -/
theorem C4_spin_reward (m : EngineModel) (d : EngineData) :
    (TaskGetReward true m d = 1 ↔ HingeVelocity d ≤ -15)
    ∧ (TaskGetReward true m d = 0 ↔ ¬ HingeVelocity d ≤ -15)
    ∧ HingeVelocity d = d.sensordata 4 := by
  refine ⟨?_, ?_, rfl⟩ <;>
    [skip; skip] <;>
    by_cases h : HingeVelocity d ≤ -(15 : ℝ) <;>
    simp [TaskGetReward, kSpinVelocity, h]

/-- Claim C5: for the turn variants, episode initialization takes a
bearing angle sampled by `dist_uniform_` from `[-π, π)`, writes the
target position `hinge anchor + radius * (sin θ, cos θ)` (with radius
the sum of the three geometry half-extent entries the source reads)
into the target-site x/z position, and writes the variant's target
radius into the target-site size; the constructor installs
`target_radius_ = 0.07` for turn_easy and `0.03` for turn_hard. -/
theorem C5_target_placement (tr θ : ℝ) (m : EngineModel) (d : EngineData)
    (hθ : θ ∈ dist_uniform_interval) :
    (TaskInitEpModel false tr θ m d).site_pos 0
      = d.xanchor (2 * 3 + 0)
        + (m.geom_size (5 * 3 + 0) + m.geom_size (5 * 1) + m.geom_size (5 * 2))
          * Real.sin θ
    ∧ (TaskInitEpModel false tr θ m d).site_pos 2
      = d.xanchor (2 * 3 + 2)
        + (m.geom_size (5 * 3 + 0) + m.geom_size (5 * 1) + m.geom_size (5 * 2))
          * Real.cos θ
    ∧ (TaskInitEpModel false tr θ m d).site_size 0 = tr
    ∧ FingerEnvConstruct "turn_easy" = Except.ok ⟨false, some (0.07 : ℝ)⟩
    ∧ FingerEnvConstruct "turn_hard" = Except.ok ⟨false, some (0.03 : ℝ)⟩
    ∧ -Real.pi ≤ θ ∧ θ < Real.pi := by
  refine ⟨?_, ?_, ?_, ?_, ?_, hθ.1, hθ.2⟩
  · simp [TaskInitEpModel, Function.update]
  · simp [TaskInitEpModel, Function.update]
  · simp [TaskInitEpModel, Function.update]
  · simp [FingerEnvConstruct, kEasyTargetSize]
  · simp [FingerEnvConstruct, kHardTargetSize]

/-- Witness for C5 at the concrete bearing angle 0, which lies in the
sampling interval `[-π, π)`. -/
theorem C5_target_placement_witness :
    (0 : ℝ) ∈ dist_uniform_interval
    ∧ ((TaskInitEpModel false 0 0 cModel cData).site_pos 0
        = cData.xanchor (2 * 3 + 0)
          + (cModel.geom_size (5 * 3 + 0) + cModel.geom_size (5 * 1)
              + cModel.geom_size (5 * 2)) * Real.sin 0
       ∧ (TaskInitEpModel false 0 0 cModel cData).site_pos 2
        = cData.xanchor (2 * 3 + 2)
          + (cModel.geom_size (5 * 3 + 0) + cModel.geom_size (5 * 1)
              + cModel.geom_size (5 * 2)) * Real.cos 0
       ∧ (TaskInitEpModel false 0 0 cModel cData).site_size 0 = 0
       ∧ FingerEnvConstruct "turn_easy" = Except.ok ⟨false, some (0.07 : ℝ)⟩
       ∧ FingerEnvConstruct "turn_hard" = Except.ok ⟨false, some (0.03 : ℝ)⟩
       ∧ -Real.pi ≤ 0 ∧ (0 : ℝ) < Real.pi) := by
  have h0 : (0 : ℝ) ∈ dist_uniform_interval :=
    Set.mem_Ico.mpr ⟨neg_nonpos.mpr Real.pi_pos.le, Real.pi_pos⟩
  exact ⟨h0, C5_target_placement 0 0 cModel cData h0⟩

/-- Claim C6: the spec says spin initialization zeroes the alpha value
of both target-indicator sites and sets the hinge damping to 0.03.
Under MuJoCo's 4-float rgba layout the alpha of site 3 sits at index
`4 * 3 + 3 = 15`, but the source writes index `3 * 3 + 3 = 12` (site
3's red channel): evaluating on a model whose rgba entries are all 1,
index 15 keeps the value 1.  The damping write does match the claim. -/
theorem C6_spin_rgba_index_miss :
    (TaskInitEpModel true 0 0 cModel cData).site_rgba (3 * 0 + 3) = 0
    ∧ (TaskInitEpModel true 0 0 cModel cData).site_rgba (3 * 3 + 3) = 0
    ∧ (TaskInitEpModel true 0 0 cModel cData).site_rgba (4 * 3 + 3) = 1
    ∧ (TaskInitEpModel true 0 0 cModel cData).dof_damping 2 = 0.03 := by
  refine ⟨?_, ?_, ?_, ?_⟩ <;> simp [TaskInitEpModel, Function.update, cModel]

/-- Claim C7: construction succeeds for each of "spin", "turn_easy" and
"turn_hard" (with the corresponding member values), and for any other
task name it fails with the configuration error. -/
theorem C7_construct (s : String)
    (h1 : s ≠ "spin") (h2 : s ≠ "turn_easy") (h3 : s ≠ "turn_hard") :
    FingerEnvConstruct "spin" = Except.ok ⟨true, none⟩
    ∧ FingerEnvConstruct "turn_easy" = Except.ok ⟨false, some kEasyTargetSize⟩
    ∧ FingerEnvConstruct "turn_hard" = Except.ok ⟨false, some kHardTargetSize⟩
    ∧ FingerEnvConstruct s = Except.error "Unknown task_name for dmc finger." := by
  refine ⟨by simp [FingerEnvConstruct], by simp [FingerEnvConstruct],
    by simp [FingerEnvConstruct], ?_⟩
  simp [FingerEnvConstruct, h1, h2, h3]

/-- Witness for C7 at the concrete unknown task name "cartpole". -/
theorem C7_construct_witness :
    (("cartpole" : String) ≠ "spin" ∧ ("cartpole" : String) ≠ "turn_easy"
      ∧ ("cartpole" : String) ≠ "turn_hard")
    ∧ (FingerEnvConstruct "spin" = Except.ok ⟨true, none⟩
       ∧ FingerEnvConstruct "turn_easy" = Except.ok ⟨false, some kEasyTargetSize⟩
       ∧ FingerEnvConstruct "turn_hard" = Except.ok ⟨false, some kHardTargetSize⟩
       ∧ FingerEnvConstruct "cartpole"
          = Except.error "Unknown task_name for dmc finger.") :=
  ⟨⟨by decide, by decide, by decide⟩,
    C7_construct "cartpole" (by decide) (by decide) (by decide)⟩

/-- Claim C8: the touch observation is the elementwise `log1p` of the
two raw touch readings; on the domain of `log1p` it is nondecreasing in
each raw input, and it is nonnegative whenever the raw inputs are
nonnegative. -/
theorem C8_touch_log1p (d e f : EngineData)
    (h1 : -1 < d.sensordata 14) (h2 : d.sensordata 14 ≤ e.sensordata 14)
    (h3 : -1 < d.sensordata 15) (h4 : d.sensordata 15 ≤ e.sensordata 15)
    (h5 : 0 ≤ f.sensordata 14) (h6 : 0 ≤ f.sensordata 15) :
    (∀ g : EngineData, Touch g = (log1p (g.sensordata 14), log1p (g.sensordata 15)))
    ∧ (Touch d).1 ≤ (Touch e).1 ∧ (Touch d).2 ≤ (Touch e).2
    ∧ 0 ≤ (Touch f).1 ∧ 0 ≤ (Touch f).2 := by
  refine ⟨fun g => rfl, ?_, ?_, ?_, ?_⟩
  · simp only [Touch, log1p]
    exact Real.log_le_log (by linarith) (by linarith)
  · simp only [Touch, log1p]
    exact Real.log_le_log (by linarith) (by linarith)
  · simp only [Touch, log1p]
    exact Real.log_nonneg (by linarith)
  · simp only [Touch, log1p]
    exact Real.log_nonneg (by linarith)

/-- Witness for C8 at the all-zero sensor state. -/
theorem C8_touch_log1p_witness :
    ((-1 : ℝ) < goodData.sensordata 14
      ∧ goodData.sensordata 14 ≤ goodData.sensordata 14
      ∧ (-1 : ℝ) < goodData.sensordata 15
      ∧ goodData.sensordata 15 ≤ goodData.sensordata 15
      ∧ (0 : ℝ) ≤ goodData.sensordata 14 ∧ (0 : ℝ) ≤ goodData.sensordata 15)
    ∧ ((∀ g : EngineData,
          Touch g = (log1p (g.sensordata 14), log1p (g.sensordata 15)))
       ∧ (Touch goodData).1 ≤ (Touch goodData).1
       ∧ (Touch goodData).2 ≤ (Touch goodData).2
       ∧ 0 ≤ (Touch goodData).1 ∧ 0 ≤ (Touch goodData).2) := by
  have hA : (-1 : ℝ) < goodData.sensordata 14 := by norm_num [goodData]
  have hB : (-1 : ℝ) < goodData.sensordata 15 := by norm_num [goodData]
  have hC : (0 : ℝ) ≤ goodData.sensordata 14 := by norm_num [goodData]
  have hD : (0 : ℝ) ≤ goodData.sensordata 15 := by norm_num [goodData]
  exact ⟨⟨hA, le_refl _, hB, le_refl _, hC, hD⟩,
    C8_touch_log1p goodData goodData goodData hA (le_refl _) hB (le_refl _) hC hD⟩

/-- Claim C9: every record emitted by `Reset` (when it returns without
an error) and by `Step` carries position, velocity, touch, reward and
discount; it carries target_position and dist_to_target exactly when
the variant is not spin. -/
theorem C9_record_fields (is_spin : Bool) (tr θ rew dis rew2 dis2 : ℝ)
    (m0 m1 m2 : EngineModel) (d0 d1 d2 : EngineData)
    (att : EngineModel → Nat → EngineData) (st1 : StateRecord)
    (hr : Reset is_spin tr θ m0 d0 att rew dis = Except.ok (m1, d1, st1)) :
    (st1.position = some (BoundedPosition d1)
     ∧ st1.velocity = some (Velocity d1)
     ∧ st1.touch = some (Touch d1)
     ∧ st1.reward = some rew ∧ st1.discount = some dis
     ∧ st1.target_position = (if is_spin then none else some (TargetPosition d1))
     ∧ st1.dist_to_target = (if is_spin then none else some (DistToTarget m1 d1)))
    ∧ ((Step is_spin m2 d2 rew2 dis2).position = some (BoundedPosition d2)
     ∧ (Step is_spin m2 d2 rew2 dis2).velocity = some (Velocity d2)
     ∧ (Step is_spin m2 d2 rew2 dis2).touch = some (Touch d2)
     ∧ (Step is_spin m2 d2 rew2 dis2).reward = some rew2
     ∧ (Step is_spin m2 d2 rew2 dis2).discount = some dis2
     ∧ (Step is_spin m2 d2 rew2 dis2).target_position
        = (if is_spin then none else some (TargetPosition d2))
     ∧ (Step is_spin m2 d2 rew2 dis2).dist_to_target
        = (if is_spin then none else some (DistToTarget m2 d2))) := by
  constructor
  · unfold Reset TaskInitializeEpisode at hr
    split at hr
    · simp at hr
    · simp only [Except.ok.injEq, Prod.mk.injEq] at hr
      obtain ⟨hm, hd, hst⟩ := hr
      subst hm
      subst hd
      subst hst
      simp [WriteState]
  · simp [Step, WriteState]

/-- Witness for C9: for the spin task with an attempt stream whose first
sample is contact-free, `Reset` returns without an error and the emitted
record satisfies the field layout; the `Step` half is instantiated at
the same concrete engine state. -/
theorem C9_record_fields_witness :
    (Reset true 0 0 cModel goodData goodAttempts 0 1
      = Except.ok (TaskInitEpModel true 0 0 cModel goodData, goodData,
          WriteState true (TaskInitEpModel true 0 0 cModel goodData) goodData 0 1))
    ∧ (((WriteState true (TaskInitEpModel true 0 0 cModel goodData) goodData 0 1).position
          = some (BoundedPosition goodData)
        ∧ (WriteState true (TaskInitEpModel true 0 0 cModel goodData) goodData 0 1).velocity
          = some (Velocity goodData)
        ∧ (WriteState true (TaskInitEpModel true 0 0 cModel goodData) goodData 0 1).touch
          = some (Touch goodData)
        ∧ (WriteState true (TaskInitEpModel true 0 0 cModel goodData) goodData 0 1).reward
          = some 0
        ∧ (WriteState true (TaskInitEpModel true 0 0 cModel goodData) goodData 0 1).discount
          = some 1
        ∧ (WriteState true (TaskInitEpModel true 0 0 cModel goodData) goodData 0 1).target_position
          = (if true then none else some (TargetPosition goodData))
        ∧ (WriteState true (TaskInitEpModel true 0 0 cModel goodData) goodData 0 1).dist_to_target
          = (if true then none
             else some (DistToTarget (TaskInitEpModel true 0 0 cModel goodData) goodData)))
       ∧ ((Step true cModel goodData 0 1).position = some (BoundedPosition goodData)
        ∧ (Step true cModel goodData 0 1).velocity = some (Velocity goodData)
        ∧ (Step true cModel goodData 0 1).touch = some (Touch goodData)
        ∧ (Step true cModel goodData 0 1).reward = some 0
        ∧ (Step true cModel goodData 0 1).discount = some 1
        ∧ (Step true cModel goodData 0 1).target_position
          = (if true then none else some (TargetPosition goodData))
        ∧ (Step true cModel goodData 0 1).dist_to_target
          = (if true then none else some (DistToTarget cModel goodData)))) := by
  have hr : Reset true 0 0 cModel goodData goodAttempts 0 1
      = Except.ok (TaskInitEpModel true 0 0 cModel goodData, goodData,
          WriteState true (TaskInitEpModel true 0 0 cModel goodData) goodData 0 1) := by
    have hfirst : sraLoop (goodAttempts (TaskInitEpModel true 0 0 cModel goodData))
        0 1000 goodData = goodData := by
      have h := sraLoop_accept_first
        (goodAttempts (TaskInitEpModel true 0 0 cModel goodData)) 0 999 goodData
        (by simp [goodAttempts, goodData])
      norm_num at h
      simpa [goodAttempts] using h
    unfold Reset TaskInitializeEpisode SetRandomJointAngles
    simp [hfirst]
  exact ⟨hr, C9_record_fields true 0 0 0 1 0 1 cModel
    (TaskInitEpModel true 0 0 cModel goodData) cModel goodData goodData goodData
    goodAttempts
    (WriteState true (TaskInitEpModel true 0 0 cModel goodData) goodData 0 1) hr⟩

/-- Claim C10: for the spin variant the constructor leaves
`target_radius_` unassigned, and the episode-initialization and Reset
pipelines produce identical results for any two values of that member
(reward computation and state writing never take it as an input at
all, since the source never reads the member outside the non-spin
branch of episode initialization). -/
theorem C10_spin_ignores_target_radius (tr₁ tr₂ θ rew dis : ℝ)
    (m0 : EngineModel) (d0 : EngineData) (att : EngineModel → Nat → EngineData) :
    Except.map (fun c => c.target_radius) (FingerEnvConstruct "spin") = Except.ok none
    ∧ TaskInitEpModel true tr₁ θ m0 d0 = TaskInitEpModel true tr₂ θ m0 d0
    ∧ TaskInitializeEpisode true tr₁ θ m0 d0 att
        = TaskInitializeEpisode true tr₂ θ m0 d0 att
    ∧ Reset true tr₁ θ m0 d0 att rew dis = Reset true tr₂ θ m0 d0 att rew dis := by
  refine ⟨?_, rfl, rfl, rfl⟩
  simp [FingerEnvConstruct, Except.map]

end mujoco_dmc
